import Mathlib

/-!
# Verification of the CoveoBlitz2016 entry server

Shallow embedding of `src/Team.py` and `src/server.py`.

Python strings are modelled as Lean `String`s (working over their `List Char`
data where character-level processing happens).  Python `str.lower()` is
modelled character by character with `Char.toLower` (ASCII case folding).
Python's `in` operator on strings is substring containment, modelled by
`containsSub`.  Python `int(s)` is modelled by `pyInt` (optional surrounding
whitespace, optional sign, one or more ASCII digits; `None` models a raised
`ValueError`).  Python exceptions are modelled by the `PyError` type and
functions that can raise return `Except PyError _` or pair their result with
an `Option PyError`.  Mutation of `self.matchedParagraphs` is modelled by
explicit state passing: the loop of `ResponseWriter.parseRequest` returns the
final contents of the list together with the exception, if any, so that the
partial appends performed before an exception are preserved, exactly as the
Python list mutation preserves them.
-/

/-- ASCII case folding, modelling Python `str.lower()` character by character. -/
def lowerChars (l : List Char) : List Char := l.map Char.toLower

/-- `startsWith n h` holds when `n` is a prefix of `h` (model helper for
substring containment). -/
def startsWith : List Char → List Char → Bool
  | [], _ => true
  | _ :: _, [] => false
  | a :: as, b :: bs => a = b && startsWith as bs

/-- Python `n in h` on strings: `n` occurs as a contiguous substring of `h`.
The empty string is contained in every string, as in Python. -/
def containsSub (n : List Char) : List Char → Bool
  | [] => n.isEmpty
  | c :: rest => startsWith n (c :: rest) || containsSub n rest

/-- Whitespace characters stripped by Python `int(str)`. -/
def isPySpace (c : Char) : Bool :=
  c = ' ' || c = '\t' || c = '\n' || c = '\r'

/-- Value of a list of ASCII decimal digits, most significant first. -/
def digitsToInt (l : List Char) : Int :=
  l.foldl (fun a c => 10 * a + Int.ofNat (c.toNat - 48)) 0

/-- Python `int(s)` for `str` arguments: strips surrounding whitespace, allows
one optional sign, then requires one or more ASCII decimal digits (leading
zeros allowed, as in Python).  Returns `none` where Python raises
`ValueError`.  (Python also accepts underscore digit grouping and non-ASCII
digits; those inputs are outside this model.) -/
def pyInt (s : String) : Option Int :=
  let l := ((s.data.dropWhile isPySpace).reverse.dropWhile isPySpace).reverse
  match l with
  | '-' :: ds => if !ds.isEmpty && ds.all Char.isDigit then some (-(digitsToInt ds)) else none
  | '+' :: ds => if !ds.isEmpty && ds.all Char.isDigit then some (digitsToInt ds) else none
  | ds => if !ds.isEmpty && ds.all Char.isDigit then some (digitsToInt ds) else none

/-- Python exceptions raised by this program. -/
inductive PyError where
  | typeError (msg : String)
  | valueError (msg : String)
  | keyError (key : String)
deriving DecidableEq

/-- The body of a `/CoveoBlitz` request after JSON decoding: a dictionary that
may carry the fields `q` (a string) and `paragraphs` (a string-to-string map,
modelled as an association list in dictionary iteration order, as produced by
`paragraphs.items()`). -/
structure ReqBody where
  q : Option String
  paragraphs : Option (List (String × String))

/-- Python truthiness of the decoded body: an empty dict is falsy
(`not request.get_json()` at `server.py:18`). -/
def ReqBody.falsy (r : ReqBody) : Bool := r.q.isNone && r.paragraphs.isNone

/-- `'q' in request.get_json()` at `server.py:18`. -/
def ReqBody.hasQ (r : ReqBody) : Bool := r.q.isSome

/-- The `for index, paragraph in paragraphs.items()` loop of
`ResponseWriter.parseRequest` (`Team.py:148-150`): appends `int(index)` to
`self.matchedParagraphs` for every paragraph whose lowercased text contains
the lowercased query; `int` raises `ValueError` on a key that is not an
integer literal, and the appends made before the exception persist. -/
def parseLoop (mq : List Char) : List (String × String) → List Int → List Int × Option PyError
  | [], acc => (acc, none)
  | (index, paragraph) :: rest, acc =>
    if containsSub mq (lowerChars paragraph.data) then
      match pyInt index with
      | some n => parseLoop mq rest (acc ++ [n])
      | none => (acc, some (.valueError ("invalid literal for int with base 10: " ++ index)))
    else parseLoop mq rest acc

/-- `ResponseWriter.parseRequest` (`Team.py:132-150`): looks up `request['q']`
and `request['paragraphs']` (a missing field raises `KeyError`), lowercases
the query and runs the matching loop over the paragraphs, threading the
`matchedParagraphs` state `acc`.  The `isinstance(request, dict)` check is
satisfied by construction of `ReqBody`. -/
def parseRequest (r : ReqBody) (acc : List Int) : List Int × Option PyError :=
  match r.q with
  | none => (acc, some (.keyError "q"))
  | some q =>
    match r.paragraphs with
    | none => (acc, some (.keyError "paragraphs"))
    | some ps => parseLoop (lowerChars q.data) ps acc

/-- The matches that a successful run of the loop appends: the keys of the
paragraphs containing the query, converted to integers, in iteration order.
Used to state what `parseLoop` computes. -/
def collectMatches (mq : List Char) : List (String × String) → List Int
  | [] => []
  | (index, paragraph) :: rest =>
    if containsSub mq (lowerChars paragraph.data) then
      match pyInt index with
      | some n => n :: collectMatches mq rest
      | none => collectMatches mq rest
    else collectMatches mq rest

/-! ## The phone and email regular expressions of `TeamMember.__init__`

`Team.py:61` checks `re.match("^(1 )?\d{3}-\d{3}-\d{4}( x\d{1,5})?$", phoneNumber)`
and `Team.py:63` checks `re.match("^(\w+(\.|\-)?)+(\d+)?@\w+\.\w+$", email)`.
Both patterns are anchored on both sides; in Python `$` also matches just
before one newline at the very end of the string, which `stripFinalNewline`
accounts for.  `\d` and `\w` are modelled by their ASCII classes.  Each
pattern is deterministic once spelled out (justifications inline), so it is
embedded as a recursive matcher rather than a backtracking engine. -/

/-- Python `$` matches at the end of the string or just before a single
trailing newline; stripping that newline reduces `$` to end-of-input. -/
def stripFinalNewline (l : List Char) : List Char :=
  match l.getLast? with
  | some c => if c = '\n' then l.dropLast else l
  | none => l

/-- The ASCII reading of the regex class `\w`: letters, digits, underscore. -/
def isWordChar (c : Char) : Bool := c.isAlpha || c.isDigit || c = '_'

/-- Consume exactly `n` characters matching `\d`; `none` if the input is too
short or a non-digit appears. -/
def takeDigits : Nat → List Char → Option (List Char)
  | 0, l => some l
  | _ + 1, [] => none
  | n + 1, c :: l => if c.isDigit then takeDigits n l else none

/-- The tail `( x\d{1,5})?$` of the phone pattern: either end of input, or a
space, an `x` and one to five digits reaching the end (the greedy `\d{1,5}`
must consume everything that remains for `$` to match). -/
def phoneExt : List Char → Bool
  | [] => true
  | ' ' :: 'x' :: ds => decide (1 ≤ ds.length) && decide (ds.length ≤ 5) && ds.all Char.isDigit
  | _ => false

/-- The phone pattern `^(1 )?\d{3}-\d{3}-\d{4}( x\d{1,5})?$` of `Team.py:61`.
The optional group `(1 )?` participates exactly when the string starts with
`"1 "`: skipping it there would require `\d{3}` to match the space, which
fails, so the match is deterministic. -/
def phoneMatch (s : String) : Bool :=
  let l := stripFinalNewline s.data
  let l1 := match l with
            | '1' :: ' ' :: rest => rest
            | _ => l
  match takeDigits 3 l1 with
  | none => false
  | some l2 =>
    match l2 with
    | '-' :: l3 =>
      match takeDigits 3 l3 with
      | none => false
      | some l4 =>
        match l4 with
        | '-' :: l5 =>
          match takeDigits 4 l5 with
          | none => false
          | some l6 => phoneExt l6
        | _ => false
    | _ => false

/-- The local part `(\w+(\.|\-)?)+(\d+)?` of the email pattern, continued
after its first character: each group iteration is one or more word
characters followed by at most one `.` or `-`, so a separator may never
follow a separator; the trailing `(\d+)?` adds nothing since digits are word
characters.  `prevSep` records whether the previous character was a
separator. -/
def localRest (prevSep : Bool) : List Char → Bool
  | [] => true
  | c :: rest =>
    if isWordChar c then localRest false rest
    else if (c = '.' || c = '-') && !prevSep then localRest true rest
    else false

/-- The local part `(\w+(\.|\-)?)+(\d+)?` of the email pattern at `Team.py:63`:
nonempty, starts with a word character, and every separator is preceded by a
word character. -/
def localPart : List Char → Bool
  | [] => false
  | c :: rest => isWordChar c && localRest false rest

/-- After the single dot of the domain: `\w+$`, one or more word characters
reaching the end. -/
def domainAfterDot (l : List Char) : Bool :=
  !l.isEmpty && l.all isWordChar

/-- The first segment of the domain `\w+\.` followed by `domainAfterDot`:
word characters until a dot (at least one), then the rest after the dot. -/
def domainAfterFirst : List Char → Bool
  | [] => false
  | '.' :: rest => domainAfterDot rest
  | c :: rest => isWordChar c && domainAfterFirst rest

/-- The domain part `\w+\.\w+$` of the email pattern: since `\w` never
matches `.`, the first `\w+` runs exactly up to the first dot, and the part
after the dot must be word characters to the end. -/
def domainPart : List Char → Bool
  | [] => false
  | c :: rest => isWordChar c && domainAfterFirst rest

/-- Split a list at the first occurrence of `sep`; `none` if absent. -/
def splitFirst (sep : Char) : List Char → Option (List Char × List Char)
  | [] => none
  | c :: rest =>
    if c = sep then some ([], rest)
    else
      match splitFirst sep rest with
      | some (a, b) => some (c :: a, b)
      | none => none

/-- The email pattern `^(\w+(\.|\-)?)+(\d+)?@\w+\.\w+$` of `Team.py:63`.  No
character matched by the local or domain syntax is `@`, so the local part
ends exactly at the first `@` of the string and the rest must be the
domain. -/
def emailMatch (s : String) : Bool :=
  let l := stripFinalNewline s.data
  match splitFirst '@' l with
  | none => false
  | some (loc, dom) => localPart loc && domainPart dom

/-! ## The data model: `TeamMember`, `Team`, `ResponseWriter`

The constructors are dynamically typed in Python, so they are modelled as
functions over a universe `PyVal` of runtime values, performing the same
`isinstance` checks in the same order and returning `Except PyError _`.
A `datetime.datetime` is modelled by its `.timestamp()` value (an integer in
this model; no claim depends on fractional timestamps). -/

/-- A fully validated team member, the result of a successful
`TeamMember.__init__` (`Team.py:20-72`); `dateProgramEnd` holds
`dateProgramEnd.timestamp()` as assigned at `Team.py:71`. -/
structure TeamMember where
  firstName : String
  lastName : String
  email : String
  phoneNumber : String
  educationalEstablishment : String
  studyProgram : String
  dateProgramEnd : Int
  inCharge : Bool
deriving DecidableEq

/-- A Python runtime value, as far as this program inspects them.  `teamV`
carries the attributes of a constructed `Team` object (`teamMembers` is an
arbitrary value because `Team.__init__` stores it unchecked, see
`Team.py:95-98`). -/
inductive PyVal where
  | str (s : String)
  | intV (n : Int)
  | floatV (x : Int)
  | boolV (b : Bool)
  | noneV
  | listV (xs : List PyVal)
  | datetimeV (ts : Int)
  | teamMemberV (m : TeamMember)
  | teamV (teamName : String) (teamMembers : PyVal)

/-- `TeamMember.__init__` (`Team.py:20-72`): eight `isinstance` checks in
source order, then the phone-number pattern, then the email pattern; the
first failing check raises.  On success every attribute is the argument it
was given, except `dateProgramEnd` which stores the timestamp.  The match
rows encode the source's check order: a row only fires when all checks before
its failing one have passed. -/
def TeamMember.init (fn ln em ph ee sp de ic : PyVal) : Except PyError TeamMember :=
  match fn, ln, em, ph, ee, sp, de, ic with
  | .str firstName, .str lastName, .str email, .str phoneNumber, .str edu, .str prog,
    .datetimeV ts, .boolV inCharge =>
    if phoneMatch phoneNumber then
      if emailMatch email then
        .ok ⟨firstName, lastName, email, phoneNumber, edu, prog, ts, inCharge⟩
      else .error (.valueError "The email is not in a good format.")
    else .error (.valueError "The phone number is not in a good format.")
  | .str _, .str _, .str _, .str _, .str _, .str _, .datetimeV _, _ =>
    .error (.typeError "The inCharge variable is not a boolean.")
  | .str _, .str _, .str _, .str _, .str _, .str _, _, _ =>
    .error (.typeError "The end date of the team member study program is not a datetime.")
  | .str _, .str _, .str _, .str _, .str _, _, _, _ =>
    .error (.typeError "The study program name is not a string.")
  | .str _, .str _, .str _, .str _, _, _, _, _ =>
    .error (.typeError "The educational establishment is not a string.")
  | .str _, .str _, .str _, _, _, _, _, _ =>
    .error (.typeError "The phone number is not a string.")
  | .str _, .str _, _, _, _, _, _, _ =>
    .error (.typeError "The email is not a string.")
  | .str _, _, _, _, _, _, _, _ =>
    .error (.typeError "The last name is not a string.")
  | _, _, _, _, _, _, _, _ =>
    .error (.typeError "The first name is not a string.")

/-- `Team.__init__` (`Team.py:81-98`): only `teamName` is type-checked; the
`isinstance` check on `teamMembers` (`Team.py:95-96`) is commented out in the
source, so any value is stored.  Returns the pair of stored attributes
`(teamName, teamMembers)`. -/
def Team.init (teamName teamMembers : PyVal) : Except PyError (String × PyVal) :=
  match teamName with
  | .str n => .ok (n, teamMembers)
  | _ => .error (.typeError "The team name is not a string.")

/-- `ResponseWriter.__init__` (`Team.py:118-130`): requires a `Team` object
and initialises `matchedParagraphs` to the empty list.  Returns the stored
team attributes together with the initial match list. -/
def ResponseWriter.init (team : PyVal) : Except PyError ((String × PyVal) × List Int) :=
  match team with
  | .teamV n ms => .ok ((n, ms), [])
  | _ => .error (.typeError "The team is not a Team object.")

/-! ## Serialization and the HTTP handler

The running server's roster is built by `createResponseWriter`
(`Team.py:170-196`), which appends only validated `TeamMember` objects to a
`Team`, so the server-side model uses the typed `Team` below.  JSON values
are modelled only at the shapes this program emits: primitives, an array of
integers (`matchedParagraphs`) and an array of flat objects
(`teamMembers`). -/

/-- A team as the running server holds it: a name and a list of validated
members (`Team.py:74-98` as instantiated by `createResponseWriter`). -/
structure Team where
  teamName : String
  teamMembers : List TeamMember
deriving DecidableEq

/-- A primitive JSON value emitted by this program (floats are modelled by
their integral timestamp values). -/
inductive JPrim where
  | str (s : String)
  | float (x : Int)
  | bool (b : Bool)
deriving DecidableEq

/-- A JSON value emitted by this program: a primitive, an array of integers,
or an array of flat objects. -/
inductive JValue where
  | prim (p : JPrim)
  | intArr (l : List Int)
  | objArr (l : List (List (String × JPrim)))
deriving DecidableEq

/-- `teamMember.__dict__` as used at `Team.py:108`: the instance attributes
in assignment order (`Team.py:65-72`). -/
def TeamMember.dictRepr (m : TeamMember) : List (String × JPrim) :=
  [("firstName", .str m.firstName),
   ("lastName", .str m.lastName),
   ("email", .str m.email),
   ("phoneNumber", .str m.phoneNumber),
   ("educationalEstablishment", .str m.educationalEstablishment),
   ("studyProgram", .str m.studyProgram),
   ("dateProgramEnd", .float m.dateProgramEnd),
   ("inCharge", .bool m.inCharge)]

/-- `Team.serializableRepresentation` (`Team.py:100-109`): a dictionary with
keys `teamName` and `teamMembers`. -/
def Team.serializableRepresentation (t : Team) : List (String × JValue) :=
  [("teamName", .prim (.str t.teamName)),
   ("teamMembers", .objArr (t.teamMembers.map TeamMember.dictRepr))]

/-- `ResponseWriter.__serializableRepresentation` (`Team.py:152-160`), which
`serializeJSON` returns unchanged (`Team.py:162-168`): the team's
representation with the key `matchedParagraphs` added after it. -/
def ResponseWriter.serializableRepresentation (t : Team) (matched : List Int) :
    List (String × JValue) :=
  Team.serializableRepresentation t ++ [("matchedParagraphs", .intArr matched)]

/-- The observable result of one call to the `/CoveoBlitz` handler: a normal
response, a Flask `abort`, or an uncaught Python exception (which Flask turns
into a 500 response; the manual `clear()` at `server.py:28` is then never
executed). -/
inductive Outcome where
  | http (status : Nat) (body : List (String × JValue))
  | aborted (status : Nat)
  | error (e : PyError)
deriving DecidableEq

/-- `true` exactly when the outcome is an uncaught exception. -/
def Outcome.isError : Outcome → Bool
  | .error _ => true
  | _ => false

/-- `createAnswer` (`server.py:16-30`): abort 400 when the decoded body is
absent, falsy, or lacks `q`; otherwise run `parseRequest` on the process
-global `matchedParagraphs` state `st`, serialize the answer, and clear the
list.  An exception escaping `parseRequest` skips both the response and the
`clear()`, leaving the partially extended list in place. -/
def createAnswer (team : Team) (st : List Int) (body : Option ReqBody) :
    Outcome × List Int :=
  match body with
  | none => (.aborted 400, st)
  | some r =>
    if r.falsy || !r.hasQ then (.aborted 400, st)
    else
      match parseRequest r st with
      | (st', some e) => (.error e, st')
      | (st', none) => (.http 200 (ResponseWriter.serializableRepresentation team st'), [])

/-- Sequential handling of a list of requests against the process-global
match list, as the development server does: each request is handled with the
state the previous one left behind. -/
def runSeq (team : Team) : List (Option ReqBody) → List Int → List Outcome × List Int
  | [], st => ([], st)
  | b :: bs, st =>
    match createAnswer team st b with
    | (o, st') =>
      match runSeq team bs st' with
      | (os, st'') => (o :: os, st'')

/-! ## Sanity checks: the model evaluates as the Python does on samples -/

example : parseRequest ⟨some "A", some [("1", "xaY"), ("2", "zz")]⟩ [] = ([1], none) := rfl
example : parseRequest ⟨some "x", some [("a", "xyz")]⟩ [] =
    ([], some (.valueError "invalid literal for int with base 10: a")) := rfl
example : parseRequest ⟨some "x", some [("1", "x"), ("01", "x")]⟩ [] = ([1, 1], none) := rfl
example : pyInt " -12 " = some (-12) := rfl
example : pyInt "a" = none := rfl
example : pyInt "01" = some 1 := rfl
example : phoneMatch "514-123-4567" = true := rfl
example : phoneMatch "1 514-123-4567 x12345" = true := rfl
example : phoneMatch "514-123-456" = false := rfl
example : phoneMatch "1 514-123-4567 x123456" = false := rfl
example : phoneMatch "514-123-4567\n" = true := rfl
example : emailMatch "ab@cd.ef" = true := rfl
example : emailMatch "a.b-c7@dom.org" = true := rfl
example : emailMatch "a..b@cd.ef" = false := rfl
example : emailMatch "ab@cd" = false := rfl
example : emailMatch "ab@c.d.e" = false := rfl
example : emailMatch "ab" = false := rfl

example : createAnswer ⟨"Beautiful Brown", []⟩ [] (some ⟨some "x", some [("1", "x")]⟩) =
    (.http 200 [("teamName", .prim (.str "Beautiful Brown")), ("teamMembers", .objArr []),
                ("matchedParagraphs", .intArr [1])], []) := rfl
example : createAnswer ⟨"Beautiful Brown", []⟩ [] none = (.aborted 400, []) := rfl
example : createAnswer ⟨"Beautiful Brown", []⟩ [5] (some ⟨some "x", none⟩) =
    (.error (.keyError "paragraphs"), [5]) := rfl

/-! ## Helper lemmas about the matching loop -/

/-- The empty query is contained in every string, as `"" in s` is `True` in
Python. -/
theorem containsSub_nil (l : List Char) : containsSub [] l = true := by
  cases l <;> simp [containsSub, startsWith]

/-- Unfolding: a matching paragraph with a convertible key contributes its
conversion. -/
theorem collectMatches_cons_pos (mq : List Char) (index paragraph : String)
    (rest : List (String × String)) (n : Int)
    (hc : containsSub mq (lowerChars paragraph.data) = true) (hi : pyInt index = some n) :
    collectMatches mq ((index, paragraph) :: rest) = n :: collectMatches mq rest := by
  simp [collectMatches, hc, hi]

/-- Unfolding: a matching paragraph with an unconvertible key contributes
nothing to the collected matches. -/
theorem collectMatches_cons_bad (mq : List Char) (index paragraph : String)
    (rest : List (String × String))
    (hc : containsSub mq (lowerChars paragraph.data) = true) (hi : pyInt index = none) :
    collectMatches mq ((index, paragraph) :: rest) = collectMatches mq rest := by
  simp [collectMatches, hc, hi]

/-- Unfolding: a non-matching paragraph contributes nothing. -/
theorem collectMatches_cons_neg (mq : List Char) (index paragraph : String)
    (rest : List (String × String))
    (hc : containsSub mq (lowerChars paragraph.data) = false) :
    collectMatches mq ((index, paragraph) :: rest) = collectMatches mq rest := by
  simp [collectMatches, hc]

/-- Unfolding: the loop appends the conversion of a matching key and goes on. -/
theorem parseLoop_cons_pos (mq : List Char) (index paragraph : String)
    (rest : List (String × String)) (acc : List Int) (n : Int)
    (hc : containsSub mq (lowerChars paragraph.data) = true) (hi : pyInt index = some n) :
    parseLoop mq ((index, paragraph) :: rest) acc = parseLoop mq rest (acc ++ [n]) := by
  simp [parseLoop, hc, hi]

/-- Unfolding: the loop raises `ValueError` on a matching key that does not
convert, keeping the appends made so far. -/
theorem parseLoop_cons_bad (mq : List Char) (index paragraph : String)
    (rest : List (String × String)) (acc : List Int)
    (hc : containsSub mq (lowerChars paragraph.data) = true) (hi : pyInt index = none) :
    parseLoop mq ((index, paragraph) :: rest) acc =
      (acc, some (.valueError ("invalid literal for int with base 10: " ++ index))) := by
  simp [parseLoop, hc, hi]

/-- Unfolding: the loop skips a non-matching paragraph. -/
theorem parseLoop_cons_neg (mq : List Char) (index paragraph : String)
    (rest : List (String × String)) (acc : List Int)
    (hc : containsSub mq (lowerChars paragraph.data) = false) :
    parseLoop mq ((index, paragraph) :: rest) acc = parseLoop mq rest acc := by
  simp [parseLoop, hc]

/-- A successful run of the loop returns the accumulated list extended by the
collected matches. -/
theorem parseLoop_ok_eq (mq : List Char) (ps : List (String × String)) :
    ∀ acc res, parseLoop mq ps acc = (res, none) → res = acc ++ collectMatches mq ps := by
  induction ps with
  | nil =>
    intro acc res h
    simp only [parseLoop, Prod.mk.injEq] at h
    simp [collectMatches, h.1.symm]
  | cons kp rest ih =>
    intro acc res h
    obtain ⟨index, paragraph⟩ := kp
    cases hc : containsSub mq (lowerChars paragraph.data) with
    | true =>
      cases hi : pyInt index with
      | some n =>
        rw [parseLoop_cons_pos mq index paragraph rest acc n hc hi] at h
        rw [collectMatches_cons_pos mq index paragraph rest n hc hi]
        have := ih (acc ++ [n]) res h
        simpa using this
      | none =>
        rw [parseLoop_cons_bad mq index paragraph rest acc hc hi] at h
        exact absurd (congrArg Prod.snd h) (by simp)
    | false =>
      rw [parseLoop_cons_neg mq index paragraph rest acc hc] at h
      rw [collectMatches_cons_neg mq index paragraph rest hc]
      exact ih acc res h

/-- Membership in the collected matches: exactly the integer conversions of
the keys of the matching paragraphs. -/
theorem collectMatches_mem (mq : List Char) (ps : List (String × String)) (n : Int) :
    n ∈ collectMatches mq ps ↔
      ∃ kp, kp ∈ ps ∧ pyInt kp.1 = some n ∧ containsSub mq (lowerChars kp.2.data) = true := by
  induction ps with
  | nil => simp [collectMatches]
  | cons kp rest ih =>
    obtain ⟨index, paragraph⟩ := kp
    cases hc : containsSub mq (lowerChars paragraph.data) with
    | true =>
      cases hi : pyInt index with
      | some m =>
        rw [collectMatches_cons_pos mq index paragraph rest m hc hi]
        constructor
        · intro hmem
          rcases List.mem_cons.mp hmem with rfl | hmem
          · exact ⟨(index, paragraph), List.mem_cons_self _ _, hi, hc⟩
          · obtain ⟨kp, hkp, hpi, hcs⟩ := ih.mp hmem
            exact ⟨kp, List.mem_cons_of_mem _ hkp, hpi, hcs⟩
        · rintro ⟨kp, hkp, hpi, hcs⟩
          rcases List.mem_cons.mp hkp with heq | hkp
          · subst heq
            rw [hi] at hpi
            exact List.mem_cons.mpr (Or.inl (Option.some_injective _ hpi.symm))
          · exact List.mem_cons.mpr (Or.inr (ih.mpr ⟨kp, hkp, hpi, hcs⟩))
      | none =>
        rw [collectMatches_cons_bad mq index paragraph rest hc hi]
        rw [ih]
        constructor
        · rintro ⟨kp, hkp, hpi, hcs⟩
          exact ⟨kp, List.mem_cons_of_mem _ hkp, hpi, hcs⟩
        · rintro ⟨kp, hkp, hpi, hcs⟩
          rcases List.mem_cons.mp hkp with heq | hkp
          · subst heq; rw [hi] at hpi; exact absurd hpi (by simp)
          · exact ⟨kp, hkp, hpi, hcs⟩
    | false =>
      rw [collectMatches_cons_neg mq index paragraph rest hc]
      rw [ih]
      constructor
      · rintro ⟨kp, hkp, hpi, hcs⟩
        exact ⟨kp, List.mem_cons_of_mem _ hkp, hpi, hcs⟩
      · rintro ⟨kp, hkp, hpi, hcs⟩
        rcases List.mem_cons.mp hkp with heq | hkp
        · subst heq; rw [hc] at hcs; exact absurd hcs (by simp)
        · exact ⟨kp, hkp, hpi, hcs⟩

/-- When every matching paragraph's key converts to an integer, the loop
completes without an exception and returns exactly the collected matches. -/
theorem parseLoop_ok_of (mq : List Char) (ps : List (String × String))
    (hp : ∀ kp ∈ ps, containsSub mq (lowerChars kp.2.data) = true → (pyInt kp.1).isSome = true) :
    ∀ acc, parseLoop mq ps acc = (acc ++ collectMatches mq ps, none) := by
  induction ps with
  | nil => intro acc; simp [parseLoop, collectMatches]
  | cons kp rest ih =>
    intro acc
    obtain ⟨index, paragraph⟩ := kp
    have hrest : ∀ kp ∈ rest, containsSub mq (lowerChars kp.2.data) = true →
        (pyInt kp.1).isSome = true := fun kp hkp => hp kp (List.mem_cons_of_mem _ hkp)
    cases hc : containsSub mq (lowerChars paragraph.data) with
    | true =>
      have hsome := hp (index, paragraph) (List.mem_cons_self _ _) hc
      cases hi : pyInt index with
      | some n =>
        rw [parseLoop_cons_pos mq index paragraph rest acc n hc hi]
        rw [collectMatches_cons_pos mq index paragraph rest n hc hi]
        rw [ih hrest (acc ++ [n])]
        simp
      | none => rw [hi] at hsome; simp at hsome
    | false =>
      rw [parseLoop_cons_neg mq index paragraph rest acc hc]
      rw [collectMatches_cons_neg mq index paragraph rest hc]
      exact ih hrest acc

/-- When the integer conversions of the keys are pairwise distinct, the
collected matches contain no duplicates. -/
theorem collectMatches_nodup (mq : List Char) (ps : List (String × String))
    (h : (ps.map fun kp => pyInt kp.1).Nodup) : (collectMatches mq ps).Nodup := by
  induction ps with
  | nil => simp [collectMatches]
  | cons kp rest ih =>
    obtain ⟨index, paragraph⟩ := kp
    simp only [List.map_cons, List.nodup_cons] at h
    obtain ⟨hhead, htail⟩ := h
    cases hc : containsSub mq (lowerChars paragraph.data) with
    | true =>
      cases hi : pyInt index with
      | some n =>
        rw [collectMatches_cons_pos mq index paragraph rest n hc hi]
        rw [List.nodup_cons]
        refine ⟨fun hmem => ?_, ih htail⟩
        obtain ⟨kp, hkp, hpi, _⟩ := (collectMatches_mem mq rest n).mp hmem
        refine hhead ?_
        rw [List.mem_map]
        exact ⟨kp, hkp, by rw [hpi, hi]⟩
      | none =>
        rw [collectMatches_cons_bad mq index paragraph rest hc hi]
        exact ih htail
    | false =>
      rw [collectMatches_cons_neg mq index paragraph rest hc]
      exact ih htail

/-! ## The claims -/

/-- Claim C1: for every query string `q` and paragraph map, a run of
`ResponseWriter.parseRequest` from an empty match list that returns normally
produces a `matchedParagraphs` list whose elements are exactly the integer
conversions of the keys of those paragraphs whose text contains `q` as a
case-insensitive substring, and no others. -/
theorem parseRequest_matches_exactly (q : String) (ps : List (String × String))
    (res : List Int) (h : parseRequest ⟨some q, some ps⟩ [] = (res, none)) (n : Int) :
    n ∈ res ↔ ∃ kp, kp ∈ ps ∧ pyInt kp.1 = some n ∧
      containsSub (lowerChars q.data) (lowerChars kp.2.data) = true := by
  have h' : parseLoop (lowerChars q.data) ps [] = (res, none) := h
  rw [parseLoop_ok_eq (lowerChars q.data) ps [] res h']
  simpa using collectMatches_mem (lowerChars q.data) ps n

/-- Witness for C1 at a concrete input: the query `"A"` matches paragraph
`"xaY"` (index 1) and not `"zz"` (index 2). -/
theorem parseRequest_matches_exactly_witness :
    (1 : Int) ∈ ([1] : List Int) ↔ ∃ kp, kp ∈ [("1", "xaY"), ("2", "zz")] ∧
      pyInt kp.1 = some 1 ∧
      containsSub (lowerChars "A".data) (lowerChars kp.2.data) = true :=
  parseRequest_matches_exactly "A" [("1", "xaY"), ("2", "zz")] [1] rfl 1

/-- Claim C4 (counterexample): the distinct string keys `"1"` and `"01"` both
convert to the integer 1, so over paragraphs both containing the query the
match list holds a duplicate index even though the keys are unique. -/
theorem parseRequest_unique_keys_dup_counterexample :
    ("1" : String) ≠ "01" ∧
    parseRequest ⟨some "x", some [("1", "x"), ("01", "x")]⟩ [] = ([1, 1], none) ∧
    ¬ ([1, 1] : List Int).Nodup :=
  ⟨by decide, rfl, by decide⟩

/-- Claim C4 (amended): for every paragraph map whose keys have pairwise
distinct integer conversions, a normal run of `parseRequest` from an empty
match list produces a `matchedParagraphs` list without duplicates. -/
theorem parseRequest_nodup_of_distinct_ints (q : String) (ps : List (String × String))
    (res : List Int) (hk : (ps.map fun kp => pyInt kp.1).Nodup)
    (h : parseRequest ⟨some q, some ps⟩ [] = (res, none)) : res.Nodup := by
  have h' : parseLoop (lowerChars q.data) ps [] = (res, none) := h
  rw [parseLoop_ok_eq (lowerChars q.data) ps [] res h']
  simpa using collectMatches_nodup (lowerChars q.data) ps hk

/-- Witness for the amended C4 at a concrete input. -/
theorem parseRequest_nodup_of_distinct_ints_witness : ([1] : List Int).Nodup :=
  parseRequest_nodup_of_distinct_ints "x" [("1", "x"), ("2", "y")] [1] (by decide) rfl

/-- Claim C9: for the empty query string, every paragraph matches
(Python `"" in s` is always true), so whenever every key of the map converts
to an integer, `parseRequest` from an empty match list returns normally and
the result contains the conversion of every key. -/
theorem parseRequest_empty_query_matches_all (ps : List (String × String))
    (h : ∀ kp ∈ ps, (pyInt kp.1).isSome = true) :
    ∃ res, parseRequest ⟨some "", some ps⟩ [] = (res, none) ∧
      ∀ kp ∈ ps, ∀ n : Int, pyInt kp.1 = some n → n ∈ res := by
  refine ⟨collectMatches [] ps, ?_, ?_⟩
  · show parseLoop (lowerChars "".data) ps [] = _
    simpa using parseLoop_ok_of [] ps (fun kp hkp _ => h kp hkp) []
  · intro kp hkp n hn
    exact (collectMatches_mem [] ps n).mpr ⟨kp, hkp, hn, containsSub_nil _⟩

/-- Witness for C9 at a concrete input. -/
theorem parseRequest_empty_query_matches_all_witness :
    ∃ res, parseRequest ⟨some "", some [("7", "abc"), ("8", "")]⟩ [] = (res, none) ∧
      ∀ kp ∈ [("7", "abc"), ("8", "")], ∀ n : Int, pyInt kp.1 = some n → n ∈ res :=
  parseRequest_empty_query_matches_all [("7", "abc"), ("8", "")] (by decide)

/-- Claim C10: a paragraph whose key is not an integer literal but whose text
contains the query makes `parseRequest` raise `ValueError` at `int(index)`
instead of returning a result. -/
theorem parseRequest_nonint_key_valueerror :
    parseRequest ⟨some "x", some [("a", "xyz")]⟩ [] =
      ([], some (.valueError "invalid literal for int with base 10: a")) := rfl

/-- Claim C2: with well-typed arguments, `TeamMember` construction succeeds
exactly on phone numbers matching `^(1 )?\d{3}-\d{3}-\d{4}( x\d{1,5})?$`
(given a well-formed email): a matching phone yields a member storing that
phone unchanged, a non-matching phone raises `ValueError`, and every
constructed member's phone number matches the pattern (the model is
immutable, and no operation in the source ever reassigns the field). -/
theorem teamMember_init_phone_spec (fn ln em ph ee sp : String) (ts : Int) (ic : Bool) :
    ((phoneMatch ph = true ∧ emailMatch em = true) →
      TeamMember.init (.str fn) (.str ln) (.str em) (.str ph) (.str ee) (.str sp)
        (.datetimeV ts) (.boolV ic) = .ok ⟨fn, ln, em, ph, ee, sp, ts, ic⟩) ∧
    (phoneMatch ph = false →
      TeamMember.init (.str fn) (.str ln) (.str em) (.str ph) (.str ee) (.str sp)
        (.datetimeV ts) (.boolV ic) =
        .error (.valueError "The phone number is not in a good format.")) ∧
    (∀ m, TeamMember.init (.str fn) (.str ln) (.str em) (.str ph) (.str ee) (.str sp)
        (.datetimeV ts) (.boolV ic) = .ok m →
      m.phoneNumber = ph ∧ phoneMatch m.phoneNumber = true) := by
  refine ⟨?_, ?_, ?_⟩
  · rintro ⟨hp, he⟩
    simp [TeamMember.init, hp, he]
  · intro hp
    simp [TeamMember.init, hp]
  · intro m hm
    cases hp : phoneMatch ph with
    | true =>
      cases he : emailMatch em with
      | true =>
        simp only [TeamMember.init, hp, he, if_true] at hm
        obtain rfl := Except.ok.inj hm
        exact ⟨rfl, hp⟩
      | false => simp [TeamMember.init, hp, he] at hm
    | false => simp [TeamMember.init, hp] at hm

/-- Witness for C2 at a concrete input: a valid phone and email construct
successfully and store the phone verbatim. -/
theorem teamMember_init_phone_spec_witness :
    TeamMember.init (.str "Luis") (.str "B") (.str "ab@cd.ef") (.str "514-123-4567")
        (.str "U") (.str "CS") (.datetimeV 0) (.boolV false) =
      .ok ⟨"Luis", "B", "ab@cd.ef", "514-123-4567", "U", "CS", 0, false⟩ :=
  (teamMember_init_phone_spec "Luis" "B" "ab@cd.ef" "514-123-4567" "U" "CS" 0 false).1
    ⟨rfl, rfl⟩

/-- Claim C3: a request with no decodable JSON body or whose body lacks `q`
is answered with a 400 abort and the global match list is untouched (the body
is never processed); a request carrying `q` and a well-formed `paragraphs`
map (string keys converting to integers) is answered with HTTP 200. -/
theorem createAnswer_missing_q_400_ok_200 (team : Team) (st : List Int) :
    (createAnswer team st none = (.aborted 400, st)) ∧
    (∀ r : ReqBody, r.q = none → createAnswer team st (some r) = (.aborted 400, st)) ∧
    (∀ r : ReqBody, ∀ q : String, ∀ ps : List (String × String),
      r.q = some q → r.paragraphs = some ps →
      (∀ kp ∈ ps, (pyInt kp.1).isSome = true) →
      ∃ b, (createAnswer team st (some r)).1 = .http 200 b) := by
  refine ⟨rfl, ?_, ?_⟩
  · intro r hq
    obtain ⟨rq, rps⟩ := r
    cases hq
    simp [createAnswer, ReqBody.falsy, ReqBody.hasQ]
  · intro r q ps hq hps hparse
    obtain ⟨rq, rps⟩ := r
    cases hq
    cases hps
    have hloop := parseLoop_ok_of (lowerChars q.data) ps (fun kp hkp _ => hparse kp hkp) st
    refine ⟨ResponseWriter.serializableRepresentation team
      (st ++ collectMatches (lowerChars q.data) ps), ?_⟩
    simp [createAnswer, ReqBody.falsy, ReqBody.hasQ, parseRequest, hloop]

/-- Witness for C3 at a concrete input: a body carrying `q` and a one-entry
paragraph map is answered with HTTP 200. -/
theorem createAnswer_missing_q_400_ok_200_witness :
    ∃ b, (createAnswer ⟨"Beautiful Brown", []⟩ []
      (some ⟨some "x", some [("1", "x")]⟩)).1 = .http 200 b :=
  (createAnswer_missing_q_400_ok_200 ⟨"Beautiful Brown", []⟩ []).2.2
    ⟨some "x", some [("1", "x")]⟩ "x" [("1", "x")] rfl rfl (by decide)

/-- Claim C8: a body that has `q` but no `paragraphs` field is not rejected
with 400: `parseRequest` raises `KeyError` at `request['paragraphs']` (an
uncaught exception, hence a 500, with the match list untouched); moreover a
400 abort happens only for an absent body or a body without `q`. -/
theorem createAnswer_missing_paragraphs_keyerror (team : Team) (st : List Int) :
    (∀ q : String, createAnswer team st (some ⟨some q, none⟩) =
      (.error (.keyError "paragraphs"), st)) ∧
    (∀ body, (createAnswer team st body).1 = .aborted 400 →
      body = none ∨ ∃ r, body = some r ∧ r.q = none) := by
  constructor
  · intro q
    rfl
  · intro body h
    cases body with
    | none => exact Or.inl rfl
    | some r =>
      refine Or.inr ⟨r, rfl, ?_⟩
      obtain ⟨rq, rps⟩ := r
      cases rq with
      | none => rfl
      | some q =>
        exfalso
        rcases hpr : parseRequest ⟨some q, rps⟩ st with ⟨st2, err⟩
        cases err <;>
          simp [createAnswer, ReqBody.falsy, ReqBody.hasQ, hpr] at h

/-- Witness for C8 at a concrete input: an absent body is among the shapes
aborted with 400. -/
theorem createAnswer_missing_paragraphs_keyerror_witness :
    (none : Option ReqBody) = none ∨ ∃ r, (none : Option ReqBody) = some r ∧ r.q = none :=
  (createAnswer_missing_paragraphs_keyerror ⟨"Beautiful Brown", []⟩ []).2 none rfl

/-- Claim C5: every normal response of the handler has status 200 and its
serialized body is a JSON object whose keys are exactly `teamName`,
`teamMembers` and `matchedParagraphs`, the last being an array of
integers. -/
theorem createAnswer_response_shape (team : Team) (st : List Int) (body : Option ReqBody)
    (code : Nat) (b : List (String × JValue)) (st2 : List Int)
    (h : createAnswer team st body = (.http code b, st2)) :
    code = 200 ∧ b.map Prod.fst = ["teamName", "teamMembers", "matchedParagraphs"] ∧
    ∃ l : List Int, List.lookup "matchedParagraphs" b = some (.intArr l) := by
  cases body with
  | none => exact absurd h (by simp [createAnswer])
  | some r =>
    cases hcond : (r.falsy || !r.hasQ) with
    | true => simp [createAnswer, hcond] at h
    | false =>
      rcases hpr : parseRequest r st with ⟨st3, err⟩
      cases err with
      | some e => simp [createAnswer, hcond, hpr] at h
      | none =>
        simp only [createAnswer, hcond, hpr, Bool.false_eq_true, if_false,
          Prod.mk.injEq, Outcome.http.injEq] at h
        obtain ⟨⟨hcode, hb⟩, _⟩ := h
        subst hb
        refine ⟨hcode.symm, rfl, st3, ?_⟩
        simp [ResponseWriter.serializableRepresentation, Team.serializableRepresentation,
          List.lookup]

/-- Witness for C5 at a concrete input. -/
theorem createAnswer_response_shape_witness :
    (200 : Nat) = 200 ∧
    ([("teamName", JValue.prim (.str "Beautiful Brown")), ("teamMembers", .objArr []),
      ("matchedParagraphs", .intArr [1])].map Prod.fst =
        ["teamName", "teamMembers", "matchedParagraphs"]) ∧
    ∃ l : List Int, List.lookup "matchedParagraphs"
      [("teamName", JValue.prim (.str "Beautiful Brown")), ("teamMembers", .objArr []),
       ("matchedParagraphs", .intArr [1])] = some (.intArr l) :=
  createAnswer_response_shape ⟨"Beautiful Brown", []⟩ []
    (some ⟨some "x", some [("1", "x")]⟩) 200
    [("teamName", .prim (.str "Beautiful Brown")), ("teamMembers", .objArr []),
     ("matchedParagraphs", .intArr [1])] [] rfl

/-- Claim C7 (counterexample): a request that raises `ValueError` mid-loop
leaves its partial matches in the process-global list (the `clear()` at
`server.py:28` is never reached), and the next request's 200 response then
includes the stale index 1 alongside its own match 2 — its response depends
on the earlier request, against the claim. -/
theorem matched_state_leak_counterexample :
    (runSeq ⟨"Beautiful Brown", []⟩
        [some ⟨some "x", some [("1", "x"), ("a", "x")]⟩,
         some ⟨some "z", some [("2", "z")]⟩] []).1 =
      [.error (.valueError "invalid literal for int with base 10: a"),
       .http 200 [("teamName", .prim (.str "Beautiful Brown")), ("teamMembers", .objArr []),
                  ("matchedParagraphs", .intArr [1, 2])]] ∧
    (createAnswer ⟨"Beautiful Brown", []⟩ []
        (some ⟨some "z", some [("2", "z")]⟩)).1 =
      .http 200 [("teamName", .prim (.str "Beautiful Brown")), ("teamMembers", .objArr []),
                 ("matchedParagraphs", .intArr [2])] ∧
    JValue.intArr [1, 2] ≠ JValue.intArr [2] :=
  ⟨rfl, rfl, by decide⟩

/-- A non-raising invocation of the handler starting from an empty match list
leaves the match list empty (the 400 paths never touch it and the 200 path
clears it). -/
theorem createAnswer_reset (team : Team) (b : Option ReqBody) (o : Outcome) (st2 : List Int)
    (h : createAnswer team [] b = (o, st2)) (ho : o.isError = false) : st2 = [] := by
  cases b with
  | none =>
    obtain ⟨rfl, rfl⟩ := Prod.mk.inj h
    rfl
  | some r =>
    cases hcond : (r.falsy || !r.hasQ) with
    | true =>
      rw [createAnswer] at h
      rw [hcond] at h
      obtain ⟨rfl, rfl⟩ := Prod.mk.inj (by simpa using h)
      rfl
    | false =>
      rcases hpr : parseRequest r [] with ⟨st3, err⟩
      cases err with
      | some e =>
        simp only [createAnswer, hcond, hpr, Bool.false_eq_true, if_false] at h
        obtain ⟨rfl, rfl⟩ := Prod.mk.inj h
        simp [Outcome.isError] at ho
      | none =>
        simp only [createAnswer, hcond, hpr, Bool.false_eq_true, if_false] at h
        exact (Prod.mk.inj h).2.symm

/-- Claim C7 (amended): after a 200 response the global match list is empty,
so along any sequence of requests in which no request raises an uncaught
exception, each response is exactly the response the request would get
against a fresh empty match list — responses depend only on their own
request.  (A raising request, by contrast, leaks its partial matches into the
next response, see the counterexample.) -/
theorem runSeq_isolated (team : Team) (bodies : List (Option ReqBody))
    (h : ∀ o ∈ (runSeq team bodies []).1, o.isError = false) :
    (runSeq team bodies []).2 = [] ∧
    (runSeq team bodies []).1 = bodies.map (fun b => (createAnswer team [] b).1) := by
  induction bodies with
  | nil => exact ⟨rfl, rfl⟩
  | cons b bs ih =>
    rcases hca : createAnswer team [] b with ⟨o, st2⟩
    have hrun : runSeq team (b :: bs) [] =
        ((o :: (runSeq team bs st2).1, (runSeq team bs st2).2) : List Outcome × List Int) := by
      rw [runSeq, hca]
    rw [hrun] at h
    have ho : o.isError = false := h o (List.mem_cons_self _ _)
    have hst : st2 = [] := createAnswer_reset team b o st2 hca ho
    subst hst
    have htail := ih (fun o ho => h o (List.mem_cons_of_mem _ ho))
    rw [hrun]
    refine ⟨htail.1, ?_⟩
    simp [htail.2, hca]

/-- Witness for the amended C7 at a concrete one-request sequence. -/
theorem runSeq_isolated_witness :
    (runSeq ⟨"Beautiful Brown", []⟩ [some ⟨some "x", some [("1", "x")]⟩] []).2 = [] ∧
    (runSeq ⟨"Beautiful Brown", []⟩ [some ⟨some "x", some [("1", "x")]⟩] []).1 =
      [some ⟨some "x", some [("1", "x")]⟩].map
        (fun b => (createAnswer ⟨"Beautiful Brown", []⟩ [] b).1) :=
  runSeq_isolated ⟨"Beautiful Brown", []⟩ [some ⟨some "x", some [("1", "x")]⟩] (by decide)

/-- Claim C6 (counterexample): `Team.__init__` accepts an integer for
`teamMembers` without raising `TypeError` — the `isinstance` check at
`Team.py:95-96` is commented out, so an ill-typed argument is stored. -/
theorem team_init_unchecked_members_counterexample :
    Team.init (.str "Beautiful Brown") (.intV 42) = .ok ("Beautiful Brown", .intV 42) ∧
    ∀ e, Team.init (.str "Beautiful Brown") (.intV 42) ≠ .error e :=
  ⟨rfl, fun _ h => nomatch h⟩

/-- Claim C6 (amended): `TeamMember.__init__` type-checks all eight of its
arguments — any accepted combination is well-typed, and whenever some
argument is not of its specified type the call raises `TypeError`;
`Team.__init__` checks `teamName` and raises `TypeError` on any non-string;
`ResponseWriter.__init__` checks that its argument is a `Team` and raises
`TypeError` otherwise; `Team.__init__` however stores `teamMembers` without
any check. -/
theorem constructors_check_types_amended :
    (∀ fn ln em ph ee sp de ic m, TeamMember.init fn ln em ph ee sp de ic = .ok m →
      (∃ s, fn = .str s) ∧ (∃ s, ln = .str s) ∧ (∃ s, em = .str s) ∧ (∃ s, ph = .str s) ∧
      (∃ s, ee = .str s) ∧ (∃ s, sp = .str s) ∧ (∃ t, de = .datetimeV t) ∧
      (∃ b, ic = .boolV b)) ∧
    (∀ fn ln em ph ee sp de ic,
      ((∀ s, fn ≠ .str s) ∨ (∀ s, ln ≠ .str s) ∨ (∀ s, em ≠ .str s) ∨ (∀ s, ph ≠ .str s) ∨
       (∀ s, ee ≠ .str s) ∨ (∀ s, sp ≠ .str s) ∨ (∀ t, de ≠ .datetimeV t) ∨
       (∀ b, ic ≠ .boolV b)) →
      ∃ msg, TeamMember.init fn ln em ph ee sp de ic = .error (.typeError msg)) ∧
    (∀ tn tm r, Team.init tn tm = .ok r → ∃ s, tn = .str s) ∧
    (∀ tn tm, (∀ s, tn ≠ .str s) →
      Team.init tn tm = .error (.typeError "The team name is not a string.")) ∧
    (∀ tv r, ResponseWriter.init tv = .ok r → ∃ n ms, tv = .teamV n ms) ∧
    (∀ tv, (∀ n ms, tv ≠ .teamV n ms) →
      ResponseWriter.init tv = .error (.typeError "The team is not a Team object.")) := by
  refine ⟨?_, ?_, ?_, ?_, ?_, ?_⟩
  · intro fn ln em ph ee sp de ic m h
    unfold TeamMember.init at h
    split at h
    · exact ⟨⟨_, rfl⟩, ⟨_, rfl⟩, ⟨_, rfl⟩, ⟨_, rfl⟩, ⟨_, rfl⟩, ⟨_, rfl⟩, ⟨_, rfl⟩, ⟨_, rfl⟩⟩
    all_goals simp at h
  · intro fn ln em ph ee sp de ic hbad
    cases fn <;> try exact ⟨_, rfl⟩
    cases ln <;> try exact ⟨_, rfl⟩
    cases em <;> try exact ⟨_, rfl⟩
    cases ph <;> try exact ⟨_, rfl⟩
    cases ee <;> try exact ⟨_, rfl⟩
    cases sp <;> try exact ⟨_, rfl⟩
    cases de <;> try exact ⟨_, rfl⟩
    cases ic <;> try exact ⟨_, rfl⟩
    rcases hbad with h | h | h | h | h | h | h | h <;> exact absurd rfl (h _)
  · intro tn tm r h
    cases tn <;> first | exact ⟨_, rfl⟩ | simp [Team.init] at h
  · intro tn tm hne
    cases tn with
    | str s => exact absurd rfl (hne s)
    | _ => rfl
  · intro tv r h
    cases tv <;> first | exact ⟨_, _, rfl⟩ | simp [ResponseWriter.init] at h
  · intro tv hne
    cases tv with
    | teamV n ms => exact absurd rfl (hne n ms)
    | _ => rfl

/-- Witness for the amended C6 at concrete inputs: `TeamMember.__init__`
raises `TypeError` when the first name is an integer (the other arguments
well-typed), and `Team.__init__` raises `TypeError` on an integer team
name. -/
theorem constructors_check_types_amended_witness :
    (∃ msg, TeamMember.init (.intV 7) (.str "B") (.str "ab@cd.ef") (.str "514-123-4567")
        (.str "U") (.str "CS") (.datetimeV 0) (.boolV false) = .error (.typeError msg)) ∧
    Team.init (.intV 0) .noneV = .error (.typeError "The team name is not a string.") :=
  ⟨constructors_check_types_amended.2.1 (.intV 7) (.str "B") (.str "ab@cd.ef")
      (.str "514-123-4567") (.str "U") (.str "CS") (.datetimeV 0) (.boolV false)
      (Or.inl (fun _ h => nomatch h)),
   constructors_check_types_amended.2.2.2.1 (.intV 0) .noneV (fun _ h => nomatch h)⟩
